import Mathlib

/-!
Shallow embedding of the zhanghealth repository's core rule engine:
`health_tracker.py` (SMS metric parsing and classification), `sender.py`
(reply intent handling and the reminder batch loop), `models.py`
(`User.should_send_today`, `UserStore.update_user`) and
`trend_analyzer.py` (trend, anomaly and risk-score analysis).

Inbound SMS text is modelled as a list of Unicode code points
(`Text := List Nat`), mirroring Python strings.  Python `float` values
are modelled as exact rationals (all constants involved are short decimal
literals, and every comparison the code performs is exact at these
magnitudes).  The regex patterns of `health_tracker.py` are embedded as
explicit matching functions with Python `re.search` semantics: leftmost
match position wins, alternatives are tried in order with backtracking
into the continuation, quantifiers are greedy.
-/

namespace ZhangHealth

/-- A Python string, as its list of Unicode code points. -/
abbrev Text := List Nat

/-- Python regex `\d` on the repository's inputs: ASCII digit code points. -/
def isDigitCp (c : Nat) : Bool := 48 ≤ c && c ≤ 57

/-- Python `\s` / `str.strip` whitespace (ASCII range, which covers every
text the repository's patterns deal with). -/
def isSpaceCp (c : Nat) : Bool :=
  c == 32 || c == 9 || c == 10 || c == 13 || c == 11 || c == 12

/-- Python `str.lower` on ASCII letters (CJK code points are unchanged by
`lower`, and the repository's keyword sets are ASCII or CJK). -/
def toLowerCp (c : Nat) : Nat := if 65 ≤ c ∧ c ≤ 90 then c + 32 else c

/-- The CJK test `re.search(r'[一-鿿]', text)` of `health_tracker.py`. -/
def isCJKCp (c : Nat) : Bool := 0x4e00 ≤ c && c ≤ 0x9fff

/-- Python `str.strip()`. -/
def stripText (t : Text) : Text :=
  ((t.dropWhile isSpaceCp).reverse.dropWhile isSpaceCp).reverse

/-- Python `str.lower()`. -/
def lowerText (t : Text) : Text := t.map toLowerCp

/-- First-success choice, modelling Python's sequential fall-through. -/
def firstSome {α : Type} (a b : Option α) : Option α :=
  match a with
  | some x => some x
  | none => b

/-- Case-insensitively match the literal `lit` (given in lowercase) at the
start of `t`; on success return the rest of `t`. -/
def matchLit : Text → Text → Option Text
  | [], t => some t
  | _ :: _, [] => none
  | l :: ls, c :: cs => if toLowerCp c = l then matchLit ls cs else none

/-- Consume `\s*` greedily.  In every pattern of `health_tracker.py` the
token after `\s*` is never itself whitespace, so maximal munch is exact. -/
def skipSpaces (t : Text) : Text := t.dropWhile isSpaceCp

/-- A `\d{3}` prefix: exactly three digit code points. -/
def take3Digits : Text → Option (Text × Text)
  | c1 :: c2 :: c3 :: r =>
    if isDigitCp c1 && isDigitCp c2 && isDigitCp c3 then some ([c1, c2, c3], r) else none
  | _ => none

/-- A `\d{2}` prefix: exactly two digit code points. -/
def take2Digits : Text → Option (Text × Text)
  | c1 :: c2 :: r =>
    if isDigitCp c1 && isDigitCp c2 then some ([c1, c2], r) else none
  | _ => none

/-- Greedy `\d{2,3}` with backtracking into the continuation `k`: try three
digits first, then two, as Python's backtracking regex engine does. -/
def try23 {α : Type} (t : Text) (k : Text → Text → Option α) : Option α :=
  match take3Digits t with
  | some (ds, r) =>
    match k ds r with
    | some x => some x
    | none =>
      match take2Digits t with
      | some (ds2, r2) => k ds2 r2
      | none => none
  | none =>
    match take2Digits t with
    | some (ds, r) => k ds r
    | none => none

/-- Numeric value of a list of digit code points (most significant first). -/
def natOfDigits (ds : Text) : Nat := ds.foldl (fun a c => a * 10 + (c - 48)) 0

/-- Greedy `(\d+\.?\d*)`, returning the captured number as an exact rational
(the source parses the capture with Python `float`). -/
def numToken (t : Text) : Option (ℚ × Text) :=
  let ds := t.takeWhile isDigitCp
  if ds.isEmpty then none
  else
    match t.dropWhile isDigitCp with
    | 46 :: r2 =>
      let fs := r2.takeWhile isDigitCp
      some ((natOfDigits ds : ℚ) + (natOfDigits fs : ℚ) / (10 : ℚ) ^ fs.length,
        r2.dropWhile isDigitCp)
    | r => some ((natOfDigits ds : ℚ), r)

/-- Python `re.search`: try a match at every start position, leftmost wins. -/
def searchPos {α : Type} (f : Text → Option α) : Text → Option α
  | [] => f []
  | c :: cs => firstSome (f (c :: cs)) (searchPos f cs)

/-- The dict returned by `parse_health_data`, as a tagged variant. -/
inductive HealthData where
  | blood_pressure (systolic diastolic : Nat) (category : String)
  | blood_sugar (value : ℚ) (unit : String) (category : String)
  | weight (value : ℚ) (unit : String)
  | heart_rate (value : Nat) (category : String)
deriving DecidableEq

/-- `_classify_bp` from `health_tracker.py`, with the post-`elif` crisis
check and the fallthrough `"unknown"` kept exactly as in the source. -/
def classify_bp (systolic diastolic : Nat) : String :=
  if systolic < 120 ∧ diastolic < 80 then "normal"
  else if systolic < 130 ∧ diastolic < 80 then "elevated"
  else if systolic < 140 ∨ diastolic < 90 then "high_stage1"
  else if 140 ≤ systolic ∨ 90 ≤ diastolic then "high_stage2"
  else if 180 ≤ systolic ∨ 120 ≤ diastolic then "crisis"
  else "unknown"

/-- `_classify_bs` from `health_tracker.py` (argument in mg/dL). -/
def classify_bs (mg_dl : ℚ) : String :=
  if mg_dl < 70 then "low"
  else if mg_dl < 100 then "normal"
  else if mg_dl < 126 then "prediabetic"
  else "diabetic"

/-- `_classify_hr` from `health_tracker.py`. -/
def classify_hr (bpm : Nat) : String :=
  if bpm < 60 then "low"
  else if bpm ≤ 100 then "normal"
  else "high"

-- Keyword literals as lowercase code-point lists.
def kwBp : Text := [98, 112]  -- "bp"
def kwXueya : Text := [34880, 21387]  -- "血压"
def kwBlood : Text := [98, 108, 111, 111, 100]  -- "blood"
def kwPressure : Text := [112, 114, 101, 115, 115, 117, 114, 101]  -- "pressure"
def kwBs : Text := [98, 115]  -- "bs"
def kwXuetang : Text := [34880, 31958]  -- "血糖"
def kwSugar : Text := [115, 117, 103, 97, 114]  -- "sugar"
def kwGlucose : Text := [103, 108, 117, 99, 111, 115, 101]  -- "glucose"
def kwW : Text := [119]  -- "w"
def kwTizhong : Text := [20307, 37325]  -- "体重"
def kwWeight : Text := [119, 101, 105, 103, 104, 116]  -- "weight"
def kwHr : Text := [104, 114]  -- "hr"
def kwXinlv : Text := [24515, 29575]  -- "心率"
def kwHeart : Text := [104, 101, 97, 114, 116]  -- "heart"
def kwRate : Text := [114, 97, 116, 101]  -- "rate"
def kwPulse : Text := [112, 117, 108, 115, 101]  -- "pulse"

/-- Tail of BP pattern 1 after its keyword:
`\s*(\d{2,3})\s*/\s*(\d{2,3})`. -/
def bpBody (r : Text) : Option (Nat × Nat) :=
  try23 (skipSpaces r) (fun ds r1 =>
    match skipSpaces r1 with
    | 47 :: r2 =>
      try23 (skipSpaces r2) (fun ds2 _ => some (natOfDigits ds, natOfDigits ds2))
    | _ => none)

/-- One attempt of BP pattern 1 at the current position:
`(?:bp|血压|blood\s*pressure)\s*(\d{2,3})\s*/\s*(\d{2,3})`, alternatives
in source order. -/
def bpMatchAt (t : Text) : Option (Nat × Nat) :=
  firstSome (match matchLit kwBp t with | some r => bpBody r | none => none)
    (firstSome (match matchLit kwXueya t with | some r => bpBody r | none => none)
      (match matchLit kwBlood t with
       | some r =>
         match matchLit kwPressure (skipSpaces r) with
         | some r2 => bpBody r2
         | none => none
       | none => none))

/-- BP pattern 2: `^(\d{2,3})\s*/\s*(\d{2,3})$` (anchored at both ends). -/
def bp2Match (t : Text) : Option (Nat × Nat) :=
  try23 t (fun ds r1 =>
    match skipSpaces r1 with
    | 47 :: r2 =>
      try23 (skipSpaces r2) (fun ds2 r3 =>
        if r3 = [] then some (natOfDigits ds, natOfDigits ds2) else none)
    | _ => none)

/-- Range gate plus reading construction for one BP pattern's match; a match
that fails the range check falls through, exactly as the source's loop does. -/
def bpFrom (m : Option (Nat × Nat)) : Option HealthData :=
  match m with
  | some (s, d) =>
    if 60 ≤ s ∧ s ≤ 250 ∧ 30 ≤ d ∧ d ≤ 150 then
      some (.blood_pressure s d (classify_bp s d))
    else none
  | none => none

/-- The blood-pressure section of `parse_health_data`: both patterns in
source order. -/
def bpResult (text : Text) : Option HealthData :=
  firstSome (bpFrom (searchPos bpMatchAt text)) (bpFrom (bp2Match text))

/-- The `\s*(\d+\.?\d*)` continuation shared by the blood-sugar and weight
patterns. -/
def numAfter (r : Text) : Option ℚ :=
  match numToken (skipSpaces r) with
  | some (v, _) => some v
  | none => none

/-- One attempt of the blood-sugar pattern at the current position:
`(?:bs|血糖|blood\s*sugar|sugar|glucose)\s*(\d+\.?\d*)`. -/
def bsMatchAt (t : Text) : Option ℚ :=
  firstSome (match matchLit kwBs t with | some r => numAfter r | none => none)
    (firstSome (match matchLit kwXuetang t with | some r => numAfter r | none => none)
      (firstSome
        (match matchLit kwBlood t with
         | some r =>
           match matchLit kwSugar (skipSpaces r) with
           | some r2 => numAfter r2
           | none => none
         | none => none)
        (firstSome (match matchLit kwSugar t with | some r => numAfter r | none => none)
          (match matchLit kwGlucose t with | some r => numAfter r | none => none))))

/-- The blood-sugar section of `parse_health_data`: unit inference
(`value < 30` means mmol/L, converted by ×18 for classification) and the
mg/dL range gate `[20, 600]`. -/
def bsResult (text : Text) : Option HealthData :=
  match searchPos bsMatchAt text with
  | some value =>
    if value < 30 then
      if 20 ≤ value * 18 ∧ value * 18 ≤ 600 then
        some (.blood_sugar value "mmol/L" (classify_bs (value * 18)))
      else none
    else
      if 20 ≤ value ∧ value ≤ 600 then
        some (.blood_sugar value "mg/dL" (classify_bs value))
      else none
  | none => none

/-- One attempt of the weight pattern at the current position:
`(?:w|体重|weight)\s*(\d+\.?\d*)`.  The single-letter alternative `w` is a
prefix of `weight`, so backtracking across alternatives matters here. -/
def wtMatchAt (t : Text) : Option ℚ :=
  firstSome (match matchLit kwW t with | some r => numAfter r | none => none)
    (firstSome (match matchLit kwTizhong t with | some r => numAfter r | none => none)
      (match matchLit kwWeight t with | some r => numAfter r | none => none))

/-- The weight section of `parse_health_data`: no range gate; unit inference
is CJK ⇒ kg, else value > 100 ⇒ lbs, else kg. -/
def wtResult (text : Text) : Option HealthData :=
  match searchPos wtMatchAt text with
  | some value =>
    some (.weight value
      (if text.any isCJKCp then "kg" else if 100 < value then "lbs" else "kg"))
  | none => none

/-- Tail of the heart-rate pattern after its keyword: `\s*(\d{2,3})`. -/
def hrBody (r : Text) : Option Nat :=
  try23 (skipSpaces r) (fun ds _ => some (natOfDigits ds))

/-- One attempt of the heart-rate pattern at the current position:
`(?:hr|心率|heart\s*rate|pulse)\s*(\d{2,3})`. -/
def hrMatchAt (t : Text) : Option Nat :=
  firstSome (match matchLit kwHr t with | some r => hrBody r | none => none)
    (firstSome (match matchLit kwXinlv t with | some r => hrBody r | none => none)
      (firstSome
        (match matchLit kwHeart t with
         | some r =>
           match matchLit kwRate (skipSpaces r) with
           | some r2 => hrBody r2
           | none => none
         | none => none)
        (match matchLit kwPulse t with | some r => hrBody r | none => none)))

/-- The heart-rate section of `parse_health_data`, with its `[30, 220]`
range gate. -/
def hrResult (text : Text) : Option HealthData :=
  match searchPos hrMatchAt text with
  | some v => if 30 ≤ v ∧ v ≤ 220 then some (.heart_rate v (classify_hr v)) else none
  | none => none

/-- `parse_health_data` from `health_tracker.py`: strip, then try the metric
sections in the fixed order blood pressure → blood sugar → weight → heart
rate; a section whose pattern matches but whose range check fails falls
through to the later sections exactly as in the source. -/
def parse_health_data (raw : Text) : Option HealthData :=
  firstSome (bpResult (stripText raw))
    (firstSome (bsResult (stripText raw))
      (firstSome (wtResult (stripText raw)) (hrResult (stripText raw))))

/-- The outcome of `ReminderScheduler.handle_reply` for a known member, at
the intent level: which branch of `sender.py` lines 191–209 produced the
response message. -/
inductive ReplyIntent where
  | optOut
  | optIn
  | acknowledge
  | unknownEcho (t : Text)
deriving DecidableEq

-- "no", "stop", "unsubscribe", "quit", "cancel"
def optOutSet : List Text :=
  [[110, 111], [115, 116, 111, 112],
   [117, 110, 115, 117, 98, 115, 99, 114, 105, 98, 101],
   [113, 117, 105, 116], [99, 97, 110, 99, 101, 108]]

-- "start", "yes", "resume", "subscribe"
def optInSet : List Text :=
  [[115, 116, 97, 114, 116], [121, 101, 115],
   [114, 101, 115, 117, 109, 101], [115, 117, 98, 115, 99, 114, 105, 98, 101]]

-- "ok", "done", "完成", "做了", "好"
def ackSet : List Text :=
  [[111, 107], [100, 111, 110, 101], [23436, 25104], [20570, 20102], [22909]]

/-- `handle_reply` for a known member (`sender.py` lines 180–209): the
lowercased stripped body is tested against the three exact-match sets in
order; anything else gets the echo reply built from the stripped original
body.  No metric parsing occurs here in the source. -/
def handle_reply (body : Text) : ReplyIntent :=
  if lowerText (stripText body) ∈ optOutSet then .optOut
  else if lowerText (stripText body) ∈ optInSet then .optIn
  else if lowerText (stripText body) ∈ ackSet then .acknowledge
  else .unknownEcho (stripText body)

/-- A family member (`models.py` class `User`), with the phone already
decrypted as the constructor does.  Dates are modelled as day ordinals
(`Int`), so Python's `(a - b).days` is plain subtraction. -/
structure User where
  name : String
  phone : Text
  timezone : String
  age : Nat
  preferred_hour : Nat := 9
  active : Bool := true
  cadence_days : Int := 2
  last_sent_date : Option Int := none
  last_reply : Option Text := none
  last_reply_date : Option String := none
  exercise_plan : String := "default"
  notes : String := ""
deriving DecidableEq

/-- `User.should_send_today` from `models.py`. -/
def should_send_today (u : User) (today : Int) : Bool :=
  if !u.active then false
  else
    match u.last_sent_date with
    | none => true
    | some last_sent => decide (u.cadence_days ≤ today - last_sent)

/-- One keyword argument to `UserStore.update_user`.  `setattr` is applied
only when `hasattr(user, key)` holds; a keyword naming a non-existent
attribute is represented by `unknownKey` and is skipped by the source. -/
inductive FieldUpd where
  | setName (v : String)
  | setPhone (v : Text)
  | setTimezone (v : String)
  | setAge (v : Nat)
  | setPreferredHour (v : Nat)
  | setActive (v : Bool)
  | setCadenceDays (v : Int)
  | setLastSentDate (v : Option Int)
  | setLastReply (v : Option Text)
  | setLastReplyDate (v : Option String)
  | setExercisePlan (v : String)
  | setNotes (v : String)
  | unknownKey (key : String)
deriving DecidableEq

/-- `setattr(user, key, value)` guarded by `hasattr(user, key)`. -/
def applyUpd (u : User) : FieldUpd → User
  | .setName v => { u with name := v }
  | .setPhone v => { u with phone := v }
  | .setTimezone v => { u with timezone := v }
  | .setAge v => { u with age := v }
  | .setPreferredHour v => { u with preferred_hour := v }
  | .setActive v => { u with active := v }
  | .setCadenceDays v => { u with cadence_days := v }
  | .setLastSentDate v => { u with last_sent_date := v }
  | .setLastReply v => { u with last_reply := v }
  | .setLastReplyDate v => { u with last_reply_date := v }
  | .setExercisePlan v => { u with exercise_plan := v }
  | .setNotes v => { u with notes := v }
  | .unknownKey _ => u

/-- `UserStore.update_user` from `models.py`: find the first user whose
(decrypted) phone matches, apply the keyword updates that name existing
attributes, and save the whole list; when no user matches, return `False`
and write nothing.  The second component is the list passed to
`save_users` (`none` when `save_users` is never called). -/
def update_user : List User → Text → List FieldUpd → Bool × Option (List User)
  | [], _, _ => (false, none)
  | u :: rest, phone, kwargs =>
    if u.phone = phone then
      (true, some ((kwargs.foldl applyUpd u) :: rest))
    else
      match update_user rest phone kwargs with
      | (b, some saved) => (b, some (u :: saved))
      | (b, none) => (b, none)

/-- Why the reminder loop did or did not send to one member. -/
inductive MemberOutcome where
  | inactive
  | notDue
  | unknownTz
  | wrongHour
  | sent
  | sendFailed
deriving DecidableEq

/-- One iteration of the loop body of
`ReminderScheduler.check_and_send_reminders` (`sender.py` lines 126–160).
`tzdb` models `pytz.timezone` plus `datetime.now`: the member's current
local hour, or `none` for an unknown timezone name (the source catches
`UnknownTimeZoneError` for that member and `continue`s).  `sendOk` models
`SMSSender.send_exercise_reminder`.  On success the member's
`last_sent_date` is set to today via `UserStore.update_user`. -/
def process_member (tzdb : String → Option Nat) (sendOk : User → Bool)
    (today : Int) (u : User) : MemberOutcome × User :=
  if !u.active then (.inactive, u)
  else if !should_send_today u today then (.notDue, u)
  else
    match tzdb u.timezone with
    | none => (.unknownTz, u)
    | some current_hour =>
      if current_hour ≠ u.preferred_hour then (.wrongHour, u)
      else if sendOk u then (.sent, { u with last_sent_date := some today })
      else (.sendFailed, u)

/-- The reminder batch: each loaded member is processed in turn; every
per-member early exit in the source is a `continue`, so the loop always
reaches every member and one member's failure cannot abort the rest. -/
def check_and_send_reminders (tzdb : String → Option Nat) (sendOk : User → Bool)
    (today : Int) (users : List User) : List (MemberOutcome × User) :=
  users.map (process_member tzdb sendOk today)

/-- `statistics.mean`, in exact rational arithmetic. -/
def mean (xs : List ℚ) : ℚ := xs.sum / (xs.length : ℚ)

/-- The square of `statistics.stdev` (the sample variance over `n - 1`):
the source's `std_sys = statistics.stdev(values)` is `Real.sqrt` of this. -/
def sampleVar (xs : List ℚ) : ℚ :=
  ((xs.map (fun x => (x - mean xs) ^ 2)).sum) / ((xs.length : ℚ) - 1)

/-- One flagged anomaly from `analyze_blood_pressure` (timestamps are
carried through unchanged by the source and are not modelled). -/
structure Anomaly where
  index : Nat
  systolic : ℚ
  diastolic : ℚ
  atype : String
deriving DecidableEq

/-- The anomaly-detection block of `TrendAnalyzer.analyze_blood_pressure`
(`trend_analyzer.py` lines 84–97): with at least 5 readings, flag every
reading whose systolic is more than two standard deviations from the
full-window mean, tagged high or low by the sign of the deviation.  The
source's test `std_sys > 0 and abs(x - mean) > 2 * std_sys` with
`std_sys = sqrt(sampleVar)` is written as the equivalent rational test
`0 < sampleVar and (x - mean)^2 > 4 * sampleVar`; the equivalence with
the square-root form is proved below. -/
def bpAnomalies (readings : List (ℚ × ℚ)) : List Anomaly :=
  if 5 ≤ readings.length then
    (readings.enum).filterMap (fun ir =>
      if 0 < sampleVar (readings.map Prod.fst) ∧
          (ir.2.1 - mean (readings.map Prod.fst)) ^ 2 >
            4 * sampleVar (readings.map Prod.fst) then
        some ⟨ir.1, ir.2.1, ir.2.2,
          if ir.2.1 > mean (readings.map Prod.fst) then "high" else "low"⟩
      else none)
  else []

/-- The trend block of `TrendAnalyzer.analyze_blood_pressure` (lines
73–83), over the systolic series: `values[-5:]` against `values[:5]` when
at least 10 points, else against `values[:len//2]`. -/
def bpTrend (sys : List ℚ) : String :=
  if 5 ≤ sys.length then
    let recent_avg := mean (sys.drop (sys.length - 5))
    let older_avg :=
      if 10 ≤ sys.length then mean (sys.take 5) else mean (sys.take (sys.length / 2))
    let diff := recent_avg - older_avg
    if diff > 5 then "increasing"
    else if diff < -5 then "decreasing"
    else "stable"
  else "stable"

/-- The weight-trend block of `TrendAnalyzer.analyze_weight` (lines
144–155), returning the pair (trend, weekly_change).  Note two facts of
the source: the earlier window for 7 ≤ n < 14 points is `weights[0]` (the
single first reading, not the first half), and the labels are `gaining` /
`losing`.  Python's float literal `0.2` is modelled as the exact `1/5`. -/
def weightTrend (weights : List ℚ) : String × ℚ :=
  if 7 ≤ weights.length then
    let recent := mean (weights.drop (weights.length - 7))
    let older := if 14 ≤ weights.length then mean (weights.take 7) else weights.headI
    let weeks := max 1 ((weights.length : ℚ) / 7)
    let weekly_change := (recent - older) / weeks
    if weekly_change > 1/5 then ("gaining", weekly_change)
    else if weekly_change < -(1/5) then ("losing", weekly_change)
    else ("stable", weekly_change)
  else ("stable", 0)

/-- One row of the `BP_CATEGORIES` table of `trend_analyzer.py`. -/
structure BpCat where
  name : String
  systolic_max : Nat
  diastolic_max : Nat
  risk : String
deriving DecidableEq

def BP_CATEGORIES : List BpCat :=
  [⟨"Normal", 120, 80, "low"⟩,
   ⟨"Elevated", 129, 80, "moderate"⟩,
   ⟨"Stage 1 Hypertension", 139, 89, "high"⟩,
   ⟨"Stage 2 Hypertension", 180, 120, "very_high"⟩,
   ⟨"Hypertensive Crisis", 999, 999, "critical"⟩]

/-- `TrendAnalyzer._classify_bp`: the first category containing the
reading, else the table's last row. -/
def ta_classify_bp (systolic diastolic : Nat) : BpCat :=
  match BP_CATEGORIES.find?
      (fun cat => systolic ≤ cat.systolic_max && diastolic ≤ cat.diastolic_max) with
  | some cat => cat
  | none => ⟨"Hypertensive Crisis", 999, 999, "critical"⟩

/-- One row of the `BMI_CATEGORIES` table of `trend_analyzer.py`. -/
structure BmiCat where
  name : String
  max : ℚ
  risk : String
deriving DecidableEq

def BMI_CATEGORIES : List BmiCat :=
  [⟨"Underweight", 37/2, "moderate"⟩,
   ⟨"Normal", 249/10, "low"⟩,
   ⟨"Overweight", 299/10, "moderate"⟩,
   ⟨"Obese Class I", 349/10, "high"⟩,
   ⟨"Obese Class II", 399/10, "very_high"⟩,
   ⟨"Obese Class III", 999, "critical"⟩]

/-- `TrendAnalyzer._classify_bmi`. -/
def ta_classify_bmi (bmi : ℚ) : BmiCat :=
  match BMI_CATEGORIES.find? (fun cat => bmi ≤ cat.max) with
  | some cat => cat
  | none => ⟨"Obese Class III", 999, "critical"⟩

/-- The `bp_scores` point table of `calculate_health_risk_score`
(`.get(risk, 10)` supplies the default 10). -/
def bp_scores (risk : String) : Nat :=
  if risk = "low" then 0
  else if risk = "moderate" then 10
  else if risk = "high" then 15
  else if risk = "very_high" then 20
  else if risk = "critical" then 25
  else 10

/-- The `bmi_scores` point table (`.get(risk, 5)` supplies the default 5). -/
def bmi_scores (risk : String) : Nat :=
  if risk = "low" then 5
  else if risk = "moderate" then 8
  else if risk = "high" then 12
  else if risk = "very_high" then 14
  else if risk = "critical" then 15
  else 5

/-- The age band of `calculate_health_risk_score`. -/
def agePoints (age : Nat) : Nat :=
  if 65 ≤ age then 20
  else if 55 ≤ age then 15
  else if 45 ≤ age then 10
  else 5

/-- `TrendAnalyzer.calculate_health_risk_score` (lines 240–327), returning
the capped score and its level.  Empty reading lists model Python's falsy
`None` / `[]` defaults; `bmi_score` is forced to 0 for the `Normal` BMI
category exactly as in the source. -/
def calculate_health_risk_score (age : Nat) (bp_readings : List (Nat × Nat))
    (weight_readings : List ℚ) (height_cm : ℚ)
    (smoker diabetic family_history_cvd : Bool) : Nat × String :=
  let bpPts : Nat :=
    match bp_readings.getLast? with
    | some latest => bp_scores (ta_classify_bp latest.1 latest.2).risk
    | none => 0
  let bmiPts : Nat :=
    match weight_readings.getLast? with
    | some latest_wt =>
      let bmi := latest_wt / ((height_cm / 100) ^ 2)
      let cat := ta_classify_bmi bmi
      if cat.name = "Normal" then 0 else bmi_scores cat.risk
    | none => 0
  let raw := agePoints age + bpPts + bmiPts + (if smoker then 15 else 0) +
    (if diabetic then 10 else 0) + (if family_history_cvd then 10 else 0)
  let score := min 100 raw
  (score,
    if score ≤ 20 then "Low"
    else if score ≤ 40 then "Moderate"
    else if score ≤ 60 then "High"
    else "Very High")

/-- The blood-pressure category table exactly as the spec words it
(ordered, first match wins, with the stage2 line as the residual case),
for comparison with the source's `_classify_bp`. -/
def specBpCategory (s d : Nat) : String :=
  if s < 120 ∧ d < 80 then "normal"
  else if s < 130 ∧ d < 80 then "elevated"
  else if s < 140 ∨ d < 90 then "high_stage1"
  else "high_stage2"

/-- Canonical decimal digit code points of `n < 1000` (most significant
first), used to build the blood-pressure texts of claim C2. -/
def natDigits3 (n : Nat) : Text :=
  if n < 10 then [48 + n]
  else if n < 100 then [48 + n / 10, 48 + n % 10]
  else [48 + n / 100, 48 + n / 10 % 10, 48 + n % 10]

/-- The text `bp {s}/{d}`. -/
def bpText (s d : Nat) : Text :=
  [98, 112, 32] ++ natDigits3 s ++ (47 :: natDigits3 d)

/-- The weight-trend direction as claim C6 words it: the earlier window is
the first 7 readings when at least 14 points and otherwise the first half,
and the labels are increasing/decreasing/stable. -/
def claimWeightTrend (weights : List ℚ) : String :=
  if 7 ≤ weights.length then
    let recent := mean (weights.drop (weights.length - 7))
    let older := if 14 ≤ weights.length then mean (weights.take 7)
      else mean (weights.take (weights.length / 2))
    let weeks := max 1 ((weights.length : ℚ) / 7)
    let weekly_change := (recent - older) / weeks
    if weekly_change > 1/5 then "increasing"
    else if weekly_change < -(1/5) then "decreasing"
    else "stable"
  else "stable"

/-- A concrete blood-pressure series for exercising the anomaly detector:
eight readings of 120/80 and one of 210/100 (full-window systolic mean
130, sample variance 900, sample standard deviation 30). -/
def anomalyDemo : List (ℚ × ℚ) :=
  [(120, 80), (120, 80), (120, 80), (120, 80), (120, 80), (120, 80), (120, 80),
   (120, 80), (210, 100)]

/-- The position of a risk label in the worsening order of
`BP_CATEGORIES`; "worsening the latest BP category" in claim C7 means
moving to a label of larger rank. -/
def bpRiskRank (risk : String) : Nat :=
  if risk = "low" then 0
  else if risk = "moderate" then 1
  else if risk = "high" then 2
  else if risk = "very_high" then 3
  else 4

/-- C3: after trimming whitespace and lowercasing, membership in the
exact-match sets decides the intent with priority opt-out, then opt-in,
then acknowledge, regardless of the original case or surrounding
whitespace; a text equal to one of these keywords always gets its keyword
intent and is never re-interpreted as a metric or echoed as unknown. -/
theorem c3_exact_match_priority (body : Text) :
    (lowerText (stripText body) ∈ optOutSet → handle_reply body = .optOut) ∧
    (lowerText (stripText body) ∉ optOutSet → lowerText (stripText body) ∈ optInSet →
      handle_reply body = .optIn) ∧
    (lowerText (stripText body) ∉ optOutSet → lowerText (stripText body) ∉ optInSet →
      lowerText (stripText body) ∈ ackSet → handle_reply body = .acknowledge) := by
  refine ⟨fun h1 => ?_, fun h1 h2 => ?_, fun h1 h2 h3 => ?_⟩
  · simp [handle_reply, h1]
  · simp [handle_reply, h1, h2]
  · simp [handle_reply, h1, h2, h3]

/-- Witness for C3 at the concrete text `STOP`. -/
theorem c3_witness :
    lowerText (stripText [83, 84, 79, 80]) ∈ optOutSet ∧
    handle_reply [83, 84, 79, 80] = .optOut :=
  ⟨by decide, (c3_exact_match_priority [83, 84, 79, 80]).1 (by decide)⟩

/-- C4: an inactive member is never due; a member with no last_sent_date
is always due; otherwise due exactly when `(today - last_sent).days` is at
least `cadence_days`; and after recording today as last_sent_date with
cadence 2, the member is not due today but is due at today + 2 days. -/
theorem c4_should_send_today (u : User) (today last_sent : Int) :
    (u.active = false → should_send_today u today = false) ∧
    (u.active = true → u.last_sent_date = none → should_send_today u today = true) ∧
    (u.active = true → u.last_sent_date = some last_sent →
      (should_send_today u today = true ↔ u.cadence_days ≤ today - last_sent)) ∧
    (should_send_today
        { u with active := true, cadence_days := 2, last_sent_date := some today }
        today = false ∧
      should_send_today
        { u with active := true, cadence_days := 2, last_sent_date := some today }
        (today + 2) = true) := by
  refine ⟨fun h1 => ?_, fun h1 h2 => ?_, fun h1 h2 => ?_, ?_, ?_⟩ <;>
    simp [should_send_today, *]

/-- Witness for C4 at a concrete member and date. -/
theorem c4_witness :
    should_send_today { name := "mom", phone := [49], timezone := "UTC", age := 63 } 738000
      = true ∧
    should_send_today
      { name := "mom", phone := [49], timezone := "UTC", age := 63, active := true,
        cadence_days := 2, last_sent_date := some 738000 } 738000 = false ∧
    should_send_today
      { name := "mom", phone := [49], timezone := "UTC", age := 63, active := true,
        cadence_days := 2, last_sent_date := some 738000 } 738002 = true :=
  ⟨(c4_should_send_today { name := "mom", phone := [49], timezone := "UTC", age := 63 }
      738000 0).2.1 rfl rfl,
   (c4_should_send_today { name := "mom", phone := [49], timezone := "UTC", age := 63 }
      738000 0).2.2.2.1,
   (c4_should_send_today { name := "mom", phone := [49], timezone := "UTC", age := 63 }
      738000 0).2.2.2.2⟩

/-- C10: when no stored user's (decrypted) phone matches, `update_user`
returns False and nothing is written; when a user matches, the keyword
updates are applied to that user (a keyword naming a non-existent
attribute is skipped) and the full list is saved. -/
theorem c10_update_user (users pre post : List User) (u : User) (phone : Text)
    (kwargs : List FieldUpd) (key : String) :
    ((∀ w ∈ users, w.phone ≠ phone) → update_user users phone kwargs = (false, none)) ∧
    ((∀ w ∈ pre, w.phone ≠ phone) → u.phone = phone →
      update_user (pre ++ u :: post) phone kwargs =
        (true, some (pre ++ (kwargs.foldl applyUpd u) :: post))) ∧
    applyUpd u (.unknownKey key) = u := by
  refine ⟨fun hnone => ?_, fun hpre hu => ?_, rfl⟩
  · induction users with
    | nil => rfl
    | cons w rest ih =>
      have hw : w.phone ≠ phone := hnone w (by simp)
      have hrest := ih (fun x hx => hnone x (by simp [hx]))
      simp only [update_user, if_neg hw, hrest]
  · induction pre with
    | nil => simp [update_user, hu]
    | cons w rest ih =>
      have hw : w.phone ≠ phone := hpre w (by simp)
      have hrest := ih (fun x hx => hpre x (by simp [hx]))
      simp only [List.cons_append, update_user, if_neg hw, List.append_eq, hrest]

/-- Witness for C10 at a concrete store. -/
theorem c10_witness :
    update_user
      [{ name := "A", phone := [49], timezone := "UTC", age := 60 },
       { name := "B", phone := [50], timezone := "UTC", age := 40 }]
      [51] [.setActive false] = (false, none) ∧
    update_user
      [{ name := "A", phone := [49], timezone := "UTC", age := 60 },
       { name := "B", phone := [50], timezone := "UTC", age := 40 }]
      [50] [.setActive false, .unknownKey "bogus"] =
      (true, some
        [{ name := "A", phone := [49], timezone := "UTC", age := 60 },
         { name := "B", phone := [50], timezone := "UTC", age := 40, active := false }]) :=
  ⟨(c10_update_user
      [{ name := "A", phone := [49], timezone := "UTC", age := 60 },
       { name := "B", phone := [50], timezone := "UTC", age := 40 }]
      [] [] { name := "A", phone := [49], timezone := "UTC", age := 60 } [51] [] "").1
      (by decide),
   (c10_update_user []
      [{ name := "A", phone := [49], timezone := "UTC", age := 60 }]
      [] { name := "B", phone := [50], timezone := "UTC", age := 40 } [50]
      [.setActive false, .unknownKey "bogus"] "").2.1
      (by decide) rfl⟩

/-- C9: in a reminder batch, a due and active member with an unknown
timezone is skipped with an unchanged record (no send, no last_sent_date
update); the batch output still has one outcome per member, and each
member's outcome depends only on that member's own record, so one
member's unknown timezone cannot abort the batch or change the others. -/
theorem c9_unknown_timezone_skips (tzdb : String → Option Nat)
    (sendOk : User → Bool) (today : Int) (users : List User) (i : Nat) (u : User) :
    (check_and_send_reminders tzdb sendOk today users).length = users.length ∧
    (users[i]? = some u →
      (check_and_send_reminders tzdb sendOk today users)[i]? =
        some (process_member tzdb sendOk today u)) ∧
    (u.active = true → should_send_today u today = true → tzdb u.timezone = none →
      process_member tzdb sendOk today u = (.unknownTz, u)) := by
  refine ⟨by simp [check_and_send_reminders], fun h => ?_, fun ha hd ht => ?_⟩
  · simp [check_and_send_reminders, h]
  · simp [process_member, ha, hd, ht]

/-- Witness for C9: a two-member batch where the first member's timezone
is unknown to the timezone database. -/
theorem c9_witness :
    (check_and_send_reminders (fun _ => none) (fun _ => true) 738000
        [{ name := "A", phone := [49], timezone := "Nowhere/Oz", age := 70 },
         { name := "B", phone := [50], timezone := "UTC", age := 40 }]).length = 2 ∧
    (check_and_send_reminders (fun _ => none) (fun _ => true) 738000
        [{ name := "A", phone := [49], timezone := "Nowhere/Oz", age := 70 },
         { name := "B", phone := [50], timezone := "UTC", age := 40 }])[0]? =
      some (process_member (fun _ => none) (fun _ => true) 738000
        { name := "A", phone := [49], timezone := "Nowhere/Oz", age := 70 }) ∧
    process_member (fun _ => none) (fun _ => true) 738000
        { name := "A", phone := [49], timezone := "Nowhere/Oz", age := 70 } =
      (.unknownTz, { name := "A", phone := [49], timezone := "Nowhere/Oz", age := 70 }) :=
  ⟨(c9_unknown_timezone_skips (fun _ => none) (fun _ => true) 738000
      [{ name := "A", phone := [49], timezone := "Nowhere/Oz", age := 70 },
       { name := "B", phone := [50], timezone := "UTC", age := 40 }] 0
      { name := "A", phone := [49], timezone := "Nowhere/Oz", age := 70 }).1,
   (c9_unknown_timezone_skips (fun _ => none) (fun _ => true) 738000
      [{ name := "A", phone := [49], timezone := "Nowhere/Oz", age := 70 },
       { name := "B", phone := [50], timezone := "UTC", age := 40 }] 0
      { name := "A", phone := [49], timezone := "Nowhere/Oz", age := 70 }).2.1 rfl,
   (c9_unknown_timezone_skips (fun _ => none) (fun _ => true) 738000
      [{ name := "A", phone := [49], timezone := "Nowhere/Oz", age := 70 },
       { name := "B", phone := [50], timezone := "UTC", age := 40 }] 0
      { name := "A", phone := [49], timezone := "Nowhere/Oz", age := 70 }).2.2 rfl
      (by decide) rfl⟩

/-- C1 counterexample: the message `bp 120/80` from a known member is in
no exact-match set, and `parse_health_data` accepts it as a valid
blood-pressure reading, yet `handle_reply` returns the Unknown echo
reply — the reply pipeline never attempts metric extraction, refuting the
claim that a validated metric match is classified as health data. -/
theorem c1_counterexample :
    handle_reply [98, 112, 32, 49, 50, 48, 47, 56, 48] =
      .unknownEcho [98, 112, 32, 49, 50, 48, 47, 56, 48] ∧
    parse_health_data [98, 112, 32, 49, 50, 48, 47, 56, 48] =
      some (.blood_pressure 120 80 "high_stage1") := by decide

/-- C1 amended: for every inbound message from a known member whose
trimmed, lowercased text is not in any exact-match set, the reply pipeline
returns Unknown echoing the trimmed original text, unconditionally:
`handle_reply` never invokes the metric parser. -/
theorem c1_no_metric_extraction (body : Text)
    (h1 : lowerText (stripText body) ∉ optOutSet)
    (h2 : lowerText (stripText body) ∉ optInSet)
    (h3 : lowerText (stripText body) ∉ ackSet) :
    handle_reply body = .unknownEcho (stripText body) := by
  simp [handle_reply, h1, h2, h3]

/-- Witness for the amended C1 at the concrete text `bp 130/85`. -/
theorem c1_witness :
    lowerText (stripText [98, 112, 32, 49, 51, 48, 47, 56, 53]) ∉ optOutSet ∧
    lowerText (stripText [98, 112, 32, 49, 51, 48, 47, 56, 53]) ∉ optInSet ∧
    lowerText (stripText [98, 112, 32, 49, 51, 48, 47, 56, 53]) ∉ ackSet ∧
    handle_reply [98, 112, 32, 49, 51, 48, 47, 56, 53] =
      .unknownEcho (stripText [98, 112, 32, 49, 51, 48, 47, 56, 53]) :=
  ⟨by decide, by decide, by decide,
   c1_no_metric_extraction [98, 112, 32, 49, 51, 48, 47, 56, 53]
     (by decide) (by decide) (by decide)⟩

/-- The risk label of a classified blood-pressure category is one of the
five labels of the `BP_CATEGORIES` table. -/
lemma ta_classify_bp_risk_mem (s d : Nat) :
    (ta_classify_bp s d).risk ∈
      (["low", "moderate", "high", "very_high", "critical"] : List String) := by
  unfold ta_classify_bp
  rcases hf : BP_CATEGORIES.find?
      (fun cat => s ≤ cat.systolic_max && d ≤ cat.diastolic_max) with _ | cat
  · simp only [hf]; decide
  · have hmem := List.mem_of_find?_eq_some hf
    simp only [hf]
    simp only [BP_CATEGORIES, List.mem_cons, List.not_mem_nil, or_false] at hmem
    rcases hmem with rfl | rfl | rfl | rfl | rfl <;> decide

/-- The BP point table is monotone in the worsening order of risk labels. -/
lemma bp_scores_rank_mono {r1 r2 : String}
    (h1 : r1 ∈ (["low", "moderate", "high", "very_high", "critical"] : List String))
    (h2 : r2 ∈ (["low", "moderate", "high", "very_high", "critical"] : List String))
    (h : bpRiskRank r1 ≤ bpRiskRank r2) : bp_scores r1 ≤ bp_scores r2 := by
  simp only [List.mem_cons, List.not_mem_nil, or_false] at h1 h2
  rcases h1 with rfl | rfl | rfl | rfl | rfl <;> rcases h2 with rfl | rfl | rfl | rfl | rfl <;>
    revert h <;> decide

/-- The age band table is monotone in age. -/
lemma agePoints_mono {a1 a2 : Nat} (h : a1 ≤ a2) : agePoints a1 ≤ agePoints a2 := by
  unfold agePoints
  split_ifs <;> omega

/-- C7: the risk score is capped at 100 and mapped to its level at the
20/40/60 breakpoints; and for otherwise-fixed inputs, a higher age, a
worsening latest blood-pressure category (in the order of the
`BP_CATEGORIES` table), or setting smoker never decreases the score. -/
theorem c7_risk_score (age age1 age2 : Nat) (bp bp1 bp2 : List (Nat × Nat))
    (wt : List ℚ) (height : ℚ) (smoker diabetic fh : Bool)
    (s1 d1 s2 d2 : Nat) :
    (calculate_health_risk_score age bp wt height smoker diabetic fh).1 ≤ 100 ∧
    ((calculate_health_risk_score age bp wt height smoker diabetic fh).2 =
      if (calculate_health_risk_score age bp wt height smoker diabetic fh).1 ≤ 20
      then "Low"
      else if (calculate_health_risk_score age bp wt height smoker diabetic fh).1 ≤ 40
      then "Moderate"
      else if (calculate_health_risk_score age bp wt height smoker diabetic fh).1 ≤ 60
      then "High"
      else "Very High") ∧
    (age1 ≤ age2 →
      (calculate_health_risk_score age1 bp wt height smoker diabetic fh).1 ≤
        (calculate_health_risk_score age2 bp wt height smoker diabetic fh).1) ∧
    (bp1.getLast? = some (s1, d1) → bp2.getLast? = some (s2, d2) →
      bpRiskRank (ta_classify_bp s1 d1).risk ≤ bpRiskRank (ta_classify_bp s2 d2).risk →
      (calculate_health_risk_score age bp1 wt height smoker diabetic fh).1 ≤
        (calculate_health_risk_score age bp2 wt height smoker diabetic fh).1) ∧
    ((calculate_health_risk_score age bp wt height false diabetic fh).1 ≤
      (calculate_health_risk_score age bp wt height true diabetic fh).1) := by
  refine ⟨Nat.min_le_left _ _, rfl, fun h => ?_, fun h1 h2 h3 => ?_, ?_⟩
  · have hm := agePoints_mono h
    simp only [calculate_health_risk_score]
    omega
  · have hm := bp_scores_rank_mono (ta_classify_bp_risk_mem s1 d1)
      (ta_classify_bp_risk_mem s2 d2) h3
    simp only [calculate_health_risk_score, h1, h2]
    omega
  · simp only [calculate_health_risk_score, Bool.false_eq_true, if_false, if_true]
    omega

/-- Witness for C7 at concrete inputs. -/
theorem c7_witness :
    (calculate_health_risk_score 70 [(150, 95)] [] 175 true false false).1 ≤ 100 ∧
    (calculate_health_risk_score 40 [(118, 78)] [] 175 false false false).1 ≤
      (calculate_health_risk_score 70 [(118, 78)] [] 175 false false false).1 ∧
    bpRiskRank (ta_classify_bp 118 78).risk ≤ bpRiskRank (ta_classify_bp 150 95).risk ∧
    (calculate_health_risk_score 40 [(118, 78)] [] 175 false false false).1 ≤
      (calculate_health_risk_score 40 [(150, 95)] [] 175 false false false).1 ∧
    (calculate_health_risk_score 40 [(118, 78)] [] 175 false false false).1 ≤
      (calculate_health_risk_score 40 [(118, 78)] [] 175 true false false).1 :=
  ⟨(c7_risk_score 70 0 0 [(150, 95)] [] [] [] 175 true false false 0 0 0 0).1,
   (c7_risk_score 40 40 70 [(118, 78)] [] [] [] 175 false false false 0 0 0 0).2.2.1
     (by decide),
   by decide,
   (c7_risk_score 40 0 0 [] [(118, 78)] [(150, 95)] [] 175 false false false
     118 78 150 95).2.2.2.1 rfl rfl (by decide),
   (c7_risk_score 40 0 0 [(118, 78)] [] [] [] 175 false false false 0 0 0 0).2.2.2.2⟩

/-- C6 counterexample: on the seven weight readings
75, 60, 60, 75, 75, 75, 75 kg the source reports trend `losing` (its
earlier window is the single first reading, 75), which is not one of the
claimed labels, while the claim's recipe (earlier window = mean of the
first half, labels increasing/decreasing/stable) yields `increasing`. -/
theorem c6_counterexample :
    (weightTrend [75, 60, 60, 75, 75, 75, 75]).1 = "losing" ∧
    claimWeightTrend [75, 60, 60, 75, 75, 75, 75] = "increasing" ∧
    ("losing" : String) ∉ (["increasing", "decreasing", "stable"] : List String) := by
  refine ⟨?_, ?_, by decide⟩
  · norm_num [weightTrend, mean, List.headI]
  · norm_num [claimWeightTrend, mean]

/-- C6 amended: with at least 5 (blood pressure) or 7 (weight) readings,
the trend compares the mean of the last 5 (or 7) points against an
earlier window that is the first 5 (or 7) when at least 10 (or 14)
points; otherwise the earlier window is the first half for blood pressure
but the single first reading for weight.  Blood-pressure directions are
increasing/decreasing/stable at the 5 mmHg threshold; weight directions
are gaining/losing/stable at the week-normalized 0.2 kg/week threshold. -/
theorem c6_trend_windows (sys weights : List ℚ)
    (h5 : 5 ≤ sys.length) (h7 : 7 ≤ weights.length) :
    bpTrend sys =
      (if mean (sys.drop (sys.length - 5)) -
          (if 10 ≤ sys.length then mean (sys.take 5)
           else mean (sys.take (sys.length / 2))) > 5 then "increasing"
       else if mean (sys.drop (sys.length - 5)) -
          (if 10 ≤ sys.length then mean (sys.take 5)
           else mean (sys.take (sys.length / 2))) < -5 then "decreasing"
       else "stable") ∧
    (weightTrend weights).1 =
      (if (mean (weights.drop (weights.length - 7)) -
            (if 14 ≤ weights.length then mean (weights.take 7) else weights.headI)) /
            max 1 ((weights.length : ℚ) / 7) > 1/5 then "gaining"
       else if (mean (weights.drop (weights.length - 7)) -
            (if 14 ≤ weights.length then mean (weights.take 7) else weights.headI)) /
            max 1 ((weights.length : ℚ) / 7) < -(1/5) then "losing"
       else "stable") ∧
    bpTrend sys ∈ (["increasing", "decreasing", "stable"] : List String) ∧
    (weightTrend weights).1 ∈ (["gaining", "losing", "stable"] : List String) := by
  refine ⟨?_, ?_, ?_, ?_⟩
  · simp only [bpTrend, if_pos h5]
  · simp only [weightTrend, if_pos h7]
    split_ifs <;> rfl
  · unfold bpTrend
    dsimp only
    split_ifs <;> simp
  · unfold weightTrend
    dsimp only
    split_ifs <;> simp

/-- Witness for the amended C6 at concrete reading series. -/
theorem c6_trend_witness :
    bpTrend [120, 125, 130, 128, 126] =
      (if mean (([120, 125, 130, 128, 126] : List ℚ).drop
            (([120, 125, 130, 128, 126] : List ℚ).length - 5)) -
          (if 10 ≤ ([120, 125, 130, 128, 126] : List ℚ).length
           then mean (([120, 125, 130, 128, 126] : List ℚ).take 5)
           else mean (([120, 125, 130, 128, 126] : List ℚ).take
             (([120, 125, 130, 128, 126] : List ℚ).length / 2))) > 5 then "increasing"
       else if mean (([120, 125, 130, 128, 126] : List ℚ).drop
            (([120, 125, 130, 128, 126] : List ℚ).length - 5)) -
          (if 10 ≤ ([120, 125, 130, 128, 126] : List ℚ).length
           then mean (([120, 125, 130, 128, 126] : List ℚ).take 5)
           else mean (([120, 125, 130, 128, 126] : List ℚ).take
             (([120, 125, 130, 128, 126] : List ℚ).length / 2))) < -5 then "decreasing"
       else "stable") ∧
    (weightTrend [75, 60, 60, 75, 75, 75, 75]).1 ∈
      (["gaining", "losing", "stable"] : List String) :=
  ⟨(c6_trend_windows [120, 125, 130, 128, 126] [75, 60, 60, 75, 75, 75, 75]
      (by decide) (by decide)).1,
   (c6_trend_windows [120, 125, 130, 128, 126] [75, 60, 60, 75, 75, 75, 75]
      (by decide) (by decide)).2.2.2⟩

/-- For nonnegative `v`, the rational squared test `a^2 > 4v` used in
`bpAnomalies` is exactly the real test `|a| > 2 * sqrt v` performed by the
source with `statistics.stdev`. -/
lemma sq_gt_iff_abs_gt (a v : ℝ) (hv : 0 ≤ v) :
    a ^ 2 > 4 * v ↔ |a| > 2 * Real.sqrt v := by
  have h1 : Real.sqrt (4 * v) = 2 * Real.sqrt v := by
    rw [show (4 : ℝ) = 2 ^ 2 by norm_num, Real.sqrt_mul (by positivity),
      Real.sqrt_sq (by norm_num)]
  rw [← h1, ← Real.sqrt_sq_eq_abs]
  exact (Real.sqrt_lt_sqrt_iff (by positivity)).symm

/-- C5: with at least 5 blood-pressure readings and non-zero sample
standard deviation, the anomaly list is exactly the enumerated readings
whose systolic deviates from the full-window mean by more than two sample
standard deviations, each tagged high or low by the sign of the
deviation.  (The claim's five-reading instance is the length-5 case of
this equality; no five-reading series can place a point beyond two sample
standard deviations, so there both sides are necessarily empty.) -/
theorem c5_anomalies (readings : List (ℚ × ℚ))
    (h5 : 5 ≤ readings.length)
    (hv : 0 < sampleVar (readings.map Prod.fst)) :
    bpAnomalies readings =
      readings.enum.filterMap (fun ir =>
        if |(ir.2.1 : ℝ) - (mean (readings.map Prod.fst) : ℝ)| >
            2 * Real.sqrt (sampleVar (readings.map Prod.fst)) then
          some ⟨ir.1, ir.2.1, ir.2.2,
            if ir.2.1 > mean (readings.map Prod.fst) then "high" else "low"⟩
        else none) := by
  unfold bpAnomalies
  rw [if_pos h5]
  apply List.filterMap_congr
  intro ir _
  refine if_congr ?_ rfl rfl
  have hv' : (0 : ℝ) ≤ ((sampleVar (readings.map Prod.fst) : ℚ) : ℝ) := by
    exact_mod_cast hv.le
  constructor
  · rintro ⟨-, hgt⟩
    refine (sq_gt_iff_abs_gt _ _ hv').mp ?_
    exact_mod_cast hgt
  · intro habs
    refine ⟨hv, ?_⟩
    have h2 := (sq_gt_iff_abs_gt _ _ hv').mpr habs
    push_cast at h2
    exact_mod_cast h2

/-- Witness for C5 at the nine-reading series `anomalyDemo`. -/
theorem c5_witness :
    5 ≤ anomalyDemo.length ∧
    0 < sampleVar (anomalyDemo.map Prod.fst) ∧
    bpAnomalies anomalyDemo =
      anomalyDemo.enum.filterMap (fun ir =>
        if |(ir.2.1 : ℝ) - (mean (anomalyDemo.map Prod.fst) : ℝ)| >
            2 * Real.sqrt (sampleVar (anomalyDemo.map Prod.fst)) then
          some ⟨ir.1, ir.2.1, ir.2.2,
            if ir.2.1 > mean (anomalyDemo.map Prod.fst) then "high" else "low"⟩
        else none) :=
  ⟨by decide, by norm_num [anomalyDemo, sampleVar, mean],
   c5_anomalies anomalyDemo (by decide) (by norm_num [anomalyDemo, sampleVar, mean])⟩

/-- The blood-pressure section only ever produces blood-pressure
readings. -/
lemma bpFrom_shape {m : Option (Nat × Nat)} {hd : HealthData}
    (h : bpFrom m = some hd) : ∃ s d c, hd = .blood_pressure s d c := by
  rcases m with _ | ⟨s, d⟩
  · exact absurd h (by simp [bpFrom])
  · simp only [bpFrom] at h
    split_ifs at h with hr
    injection h with h'
    exact ⟨s, d, classify_bp s d, h'.symm⟩

lemma bpResult_shape {x : Text} {hd : HealthData} (h : bpResult x = some hd) :
    ∃ s d c, hd = .blood_pressure s d c := by
  unfold bpResult firstSome at h
  split at h
  · next val heq =>
    obtain ⟨s, d, c, rfl⟩ := bpFrom_shape heq
    injection h with h'
    exact ⟨s, d, c, h'.symm⟩
  · exact bpFrom_shape h

/-- The blood-sugar section only ever produces blood-sugar readings. -/
lemma bsResult_shape {x : Text} {hd : HealthData} (h : bsResult x = some hd) :
    ∃ v u c, hd = .blood_sugar v u c := by
  unfold bsResult at h
  split at h
  · next v heq =>
    split_ifs at h <;> (injection h with h'; exact ⟨_, _, _, h'.symm⟩)
  · exact absurd h (by simp)

/-- The heart-rate section only ever produces heart-rate readings. -/
lemma hrResult_shape {x : Text} {hd : HealthData} (h : hrResult x = some hd) :
    ∃ v c, hd = .heart_rate v c := by
  unfold hrResult at h
  split at h
  · next v heq =>
    split_ifs at h
    injection h with h'
    exact ⟨_, _, h'.symm⟩
  · exact absurd h (by simp)

/-- A weight reading produced by the weight section carries exactly the
source's inferred unit. -/
lemma wtResult_unit {x : Text} {v : ℚ} {u : String}
    (h : wtResult x = some (.weight v u)) :
    u = (if x.any isCJKCp then "kg" else if 100 < v then "lbs" else "kg") := by
  unfold wtResult at h
  split at h
  · next value heq =>
    injection h with h'
    injection h' with h1 h2
    subst h1
    exact h2.symm
  · exact absurd h (by simp)

/-- C8: whenever `parse_health_data` returns a weight reading, its unit is
kg if the stripped message contains a CJK character, else lbs if the value
exceeds 100, else kg; and the three documented examples parse accordingly
(体重 75 → kg; weight 165 → lbs; weight 65 → kg). -/
theorem c8_weight_unit (t : Text) (v : ℚ) (u : String) :
    (parse_health_data t = some (.weight v u) →
      u = (if (stripText t).any isCJKCp then "kg"
           else if 100 < v then "lbs" else "kg")) ∧
    parse_health_data [20307, 37325, 32, 55, 53] = some (.weight 75 "kg") ∧
    parse_health_data [119, 101, 105, 103, 104, 116, 32, 49, 54, 53] =
      some (.weight 165 "lbs") ∧
    parse_health_data [119, 101, 105, 103, 104, 116, 32, 54, 53] =
      some (.weight 65 "kg") := by
  refine ⟨fun h => ?_, by decide, by decide, by decide⟩
  unfold parse_health_data firstSome at h
  split at h
  · next val heq =>
    obtain ⟨s, d, c, rfl⟩ := bpResult_shape heq
    exact absurd h (by simp)
  · split at h
    · next val heq =>
      obtain ⟨v2, u2, c2, rfl⟩ := bsResult_shape heq
      exact absurd h (by simp)
    · split at h
      · next val heq =>
        injection h with h'
        rw [h'] at heq
        exact wtResult_unit heq
      · obtain ⟨v2, c2, hcon⟩ := hrResult_shape h
        exact absurd hcon (by simp)

/-- Witness for C8 at the concrete text `体重 75`. -/
theorem c8_witness :
    parse_health_data [20307, 37325, 32, 55, 53] = some (.weight 75 "kg") ∧
    ("kg" : String) =
      (if (stripText [20307, 37325, 32, 55, 53]).any isCJKCp then "kg"
       else if (100 : ℚ) < 75 then "lbs" else "kg") :=
  ⟨(c8_weight_unit [20307, 37325, 32, 55, 53] 75 "kg").2.1,
   (c8_weight_unit [20307, 37325, 32, 55, 53] 75 "kg").1
     ((c8_weight_unit [20307, 37325, 32, 55, 53] 75 "kg").2.1)⟩

-- Ground facts about individual code points used by the C2 evaluation.
lemma isDigitCp_digit (x : Nat) (hx : x ≤ 9) : isDigitCp (48 + x) = true := by
  simp only [isDigitCp, Bool.and_eq_true, decide_eq_true_eq]
  omega

lemma isSpaceCp_digit (x : Nat) : isSpaceCp (48 + x) = false := by
  simp only [isSpaceCp, Bool.or_eq_false_iff, beq_eq_false_iff_ne, ne_eq]
  omega

lemma isSpaceCp_98 : isSpaceCp 98 = false := by decide

lemma isDigitCp_47 : isDigitCp 47 = false := by decide

lemma isSpaceCp_47 : isSpaceCp 47 = false := by decide

lemma isSpaceCp_32 : isSpaceCp 32 = true := by decide

/-- BP pattern 1 on `bp a1a2/b1b2` (two-digit groups on both sides). -/
lemma bpMatchAt_eval22 (a1 a2 b1 b2 : Nat) (ha1 : a1 ≤ 9) (ha2 : a2 ≤ 9)
    (hb1 : b1 ≤ 9) (hb2 : b2 ≤ 9) :
    bpMatchAt [98, 112, 32, 48 + a1, 48 + a2, 47, 48 + b1, 48 + b2] =
      some (10 * a1 + a2, 10 * b1 + b2) := by
  simp [bpMatchAt, matchLit, kwBp, kwXueya, kwBlood, firstSome, bpBody, skipSpaces,
    List.dropWhile, try23, take3Digits, take2Digits, natOfDigits, List.foldl, toLowerCp,
    isDigitCp_digit _ ha1, isDigitCp_digit _ ha2, isDigitCp_digit _ hb1,
    isDigitCp_digit _ hb2, isSpaceCp_digit, isSpaceCp_32, isSpaceCp_47, isDigitCp_47]
  omega

/-- BP pattern 1 on `bp a1a2/b1b2b3`. -/
lemma bpMatchAt_eval23 (a1 a2 b1 b2 b3 : Nat) (ha1 : a1 ≤ 9) (ha2 : a2 ≤ 9)
    (hb1 : b1 ≤ 9) (hb2 : b2 ≤ 9) (hb3 : b3 ≤ 9) :
    bpMatchAt [98, 112, 32, 48 + a1, 48 + a2, 47, 48 + b1, 48 + b2, 48 + b3] =
      some (10 * a1 + a2, 100 * b1 + 10 * b2 + b3) := by
  simp [bpMatchAt, matchLit, kwBp, kwXueya, kwBlood, firstSome, bpBody, skipSpaces,
    List.dropWhile, try23, take3Digits, take2Digits, natOfDigits, List.foldl, toLowerCp,
    isDigitCp_digit _ ha1, isDigitCp_digit _ ha2, isDigitCp_digit _ hb1,
    isDigitCp_digit _ hb2, isDigitCp_digit _ hb3, isSpaceCp_digit, isSpaceCp_32,
    isSpaceCp_47, isDigitCp_47]
  omega

/-- BP pattern 1 on `bp a1a2a3/b1b2`. -/
lemma bpMatchAt_eval32 (a1 a2 a3 b1 b2 : Nat) (ha1 : a1 ≤ 9) (ha2 : a2 ≤ 9)
    (ha3 : a3 ≤ 9) (hb1 : b1 ≤ 9) (hb2 : b2 ≤ 9) :
    bpMatchAt [98, 112, 32, 48 + a1, 48 + a2, 48 + a3, 47, 48 + b1, 48 + b2] =
      some (100 * a1 + 10 * a2 + a3, 10 * b1 + b2) := by
  simp [bpMatchAt, matchLit, kwBp, kwXueya, kwBlood, firstSome, bpBody, skipSpaces,
    List.dropWhile, try23, take3Digits, take2Digits, natOfDigits, List.foldl, toLowerCp,
    isDigitCp_digit _ ha1, isDigitCp_digit _ ha2, isDigitCp_digit _ ha3,
    isDigitCp_digit _ hb1, isDigitCp_digit _ hb2, isSpaceCp_digit, isSpaceCp_32,
    isSpaceCp_47, isDigitCp_47]
  omega

/-- BP pattern 1 on `bp a1a2a3/b1b2b3`. -/
lemma bpMatchAt_eval33 (a1 a2 a3 b1 b2 b3 : Nat) (ha1 : a1 ≤ 9) (ha2 : a2 ≤ 9)
    (ha3 : a3 ≤ 9) (hb1 : b1 ≤ 9) (hb2 : b2 ≤ 9) (hb3 : b3 ≤ 9) :
    bpMatchAt [98, 112, 32, 48 + a1, 48 + a2, 48 + a3, 47, 48 + b1, 48 + b2, 48 + b3] =
      some (100 * a1 + 10 * a2 + a3, 100 * b1 + 10 * b2 + b3) := by
  simp [bpMatchAt, matchLit, kwBp, kwXueya, kwBlood, firstSome, bpBody, skipSpaces,
    List.dropWhile, try23, take3Digits, take2Digits, natOfDigits, List.foldl, toLowerCp,
    isDigitCp_digit _ ha1, isDigitCp_digit _ ha2, isDigitCp_digit _ ha3,
    isDigitCp_digit _ hb1, isDigitCp_digit _ hb2, isDigitCp_digit _ hb3,
    isSpaceCp_digit, isSpaceCp_32, isSpaceCp_47, isDigitCp_47]
  omega

/-- C2: for every systolic s in [60, 250] and diastolic d in [30, 150],
parsing the text `bp s/d` returns a blood-pressure reading carrying
exactly s and d; the source's category agrees with the spec's ordered,
first-match-wins table; and the crisis branch after the stage2 branch is
unreachable (no input at all classifies as crisis). -/
theorem c2_bp_parse_and_classify (s d : Nat)
    (hs1 : 60 ≤ s) (hs2 : s ≤ 250) (hd1 : 30 ≤ d) (hd2 : d ≤ 150) :
    parse_health_data (bpText s d) = some (.blood_pressure s d (classify_bp s d)) ∧
    classify_bp s d = specBpCategory s d ∧
    (∀ s2 d2 : Nat, classify_bp s2 d2 ≠ "crisis") := by
  refine ⟨?_, ?_, fun s2 d2 => ?_⟩
  · rcases Nat.lt_or_ge s 100 with hs' | hs' <;> rcases Nat.lt_or_ge d 100 with hd' | hd'
    · have es : natDigits3 s = [48 + s / 10, 48 + s % 10] := by
        unfold natDigits3
        rw [if_neg (by omega), if_pos hs']
      have ed : natDigits3 d = [48 + d / 10, 48 + d % 10] := by
        unfold natDigits3
        rw [if_neg (by omega), if_pos hd']
      have hbp : bpText s d =
          [98, 112, 32, 48 + s / 10, 48 + s % 10, 47, 48 + d / 10, 48 + d % 10] := by
        simp [bpText, es, ed]
      have hmatch := bpMatchAt_eval22 (s / 10) (s % 10) (d / 10) (d % 10)
        (by omega) (by omega) (by omega) (by omega)
      rw [show 10 * (s / 10) + s % 10 = s by omega,
        show 10 * (d / 10) + d % 10 = d by omega] at hmatch
      have hstrip : stripText
          [98, 112, 32, 48 + s / 10, 48 + s % 10, 47, 48 + d / 10, 48 + d % 10] =
          [98, 112, 32, 48 + s / 10, 48 + s % 10, 47, 48 + d / 10, 48 + d % 10] := by
        simp [stripText, List.dropWhile, isSpaceCp_98, isSpaceCp_digit]
      rw [hbp]
      simp only [parse_health_data, hstrip, bpResult, searchPos, firstSome, hmatch, bpFrom]
      simp [hs1, hs2, hd1, hd2]
    · have es : natDigits3 s = [48 + s / 10, 48 + s % 10] := by
        unfold natDigits3
        rw [if_neg (by omega), if_pos hs']
      have ed : natDigits3 d = [48 + d / 100, 48 + d / 10 % 10, 48 + d % 10] := by
        unfold natDigits3
        rw [if_neg (by omega), if_neg (by omega)]
      have hbp : bpText s d =
          [98, 112, 32, 48 + s / 10, 48 + s % 10, 47,
           48 + d / 100, 48 + d / 10 % 10, 48 + d % 10] := by
        simp [bpText, es, ed]
      have hmatch := bpMatchAt_eval23 (s / 10) (s % 10) (d / 100) (d / 10 % 10) (d % 10)
        (by omega) (by omega) (by omega) (by omega) (by omega)
      rw [show 10 * (s / 10) + s % 10 = s by omega,
        show 100 * (d / 100) + 10 * (d / 10 % 10) + d % 10 = d by omega] at hmatch
      have hstrip : stripText
          [98, 112, 32, 48 + s / 10, 48 + s % 10, 47,
           48 + d / 100, 48 + d / 10 % 10, 48 + d % 10] =
          [98, 112, 32, 48 + s / 10, 48 + s % 10, 47,
           48 + d / 100, 48 + d / 10 % 10, 48 + d % 10] := by
        simp [stripText, List.dropWhile, isSpaceCp_98, isSpaceCp_digit]
      rw [hbp]
      simp only [parse_health_data, hstrip, bpResult, searchPos, firstSome, hmatch, bpFrom]
      simp [hs1, hs2, hd1, hd2]
    · have es : natDigits3 s = [48 + s / 100, 48 + s / 10 % 10, 48 + s % 10] := by
        unfold natDigits3
        rw [if_neg (by omega), if_neg (by omega)]
      have ed : natDigits3 d = [48 + d / 10, 48 + d % 10] := by
        unfold natDigits3
        rw [if_neg (by omega), if_pos hd']
      have hbp : bpText s d =
          [98, 112, 32, 48 + s / 100, 48 + s / 10 % 10, 48 + s % 10, 47,
           48 + d / 10, 48 + d % 10] := by
        simp [bpText, es, ed]
      have hmatch := bpMatchAt_eval32 (s / 100) (s / 10 % 10) (s % 10) (d / 10) (d % 10)
        (by omega) (by omega) (by omega) (by omega) (by omega)
      rw [show 100 * (s / 100) + 10 * (s / 10 % 10) + s % 10 = s by omega,
        show 10 * (d / 10) + d % 10 = d by omega] at hmatch
      have hstrip : stripText
          [98, 112, 32, 48 + s / 100, 48 + s / 10 % 10, 48 + s % 10, 47,
           48 + d / 10, 48 + d % 10] =
          [98, 112, 32, 48 + s / 100, 48 + s / 10 % 10, 48 + s % 10, 47,
           48 + d / 10, 48 + d % 10] := by
        simp [stripText, List.dropWhile, isSpaceCp_98, isSpaceCp_digit]
      rw [hbp]
      simp only [parse_health_data, hstrip, bpResult, searchPos, firstSome, hmatch, bpFrom]
      simp [hs1, hs2, hd1, hd2]
    · have es : natDigits3 s = [48 + s / 100, 48 + s / 10 % 10, 48 + s % 10] := by
        unfold natDigits3
        rw [if_neg (by omega), if_neg (by omega)]
      have ed : natDigits3 d = [48 + d / 100, 48 + d / 10 % 10, 48 + d % 10] := by
        unfold natDigits3
        rw [if_neg (by omega), if_neg (by omega)]
      have hbp : bpText s d =
          [98, 112, 32, 48 + s / 100, 48 + s / 10 % 10, 48 + s % 10, 47,
           48 + d / 100, 48 + d / 10 % 10, 48 + d % 10] := by
        simp [bpText, es, ed]
      have hmatch := bpMatchAt_eval33 (s / 100) (s / 10 % 10) (s % 10)
        (d / 100) (d / 10 % 10) (d % 10)
        (by omega) (by omega) (by omega) (by omega) (by omega) (by omega)
      rw [show 100 * (s / 100) + 10 * (s / 10 % 10) + s % 10 = s by omega,
        show 100 * (d / 100) + 10 * (d / 10 % 10) + d % 10 = d by omega] at hmatch
      have hstrip : stripText
          [98, 112, 32, 48 + s / 100, 48 + s / 10 % 10, 48 + s % 10, 47,
           48 + d / 100, 48 + d / 10 % 10, 48 + d % 10] =
          [98, 112, 32, 48 + s / 100, 48 + s / 10 % 10, 48 + s % 10, 47,
           48 + d / 100, 48 + d / 10 % 10, 48 + d % 10] := by
        simp [stripText, List.dropWhile, isSpaceCp_98, isSpaceCp_digit]
      rw [hbp]
      simp only [parse_health_data, hstrip, bpResult, searchPos, firstSome, hmatch, bpFrom]
      simp [hs1, hs2, hd1, hd2]
  · unfold classify_bp specBpCategory
    split_ifs <;> first | rfl | omega
  · unfold classify_bp
    split_ifs <;> first | decide | omega

/-- Witness for C2 at s = 130, d = 85. -/
theorem c2_witness :
    parse_health_data (bpText 130 85) =
      some (.blood_pressure 130 85 (classify_bp 130 85)) ∧
    classify_bp 130 85 = specBpCategory 130 85 ∧
    classify_bp 130 85 ≠ "crisis" ∧
    classify_bp 130 85 = "high_stage1" :=
  ⟨(c2_bp_parse_and_classify 130 85 (by decide) (by decide) (by decide) (by decide)).1,
   (c2_bp_parse_and_classify 130 85 (by decide) (by decide) (by decide) (by decide)).2.1,
   (c2_bp_parse_and_classify 130 85 (by decide) (by decide) (by decide)
     (by decide)).2.2 130 85,
   by decide⟩

-- Sanity checks on concrete inputs (mirroring the repository's examples).
example : parse_health_data [98, 112, 32, 49, 50, 48, 47, 56, 48]
    = some (.blood_pressure 120 80 "high_stage1") := by decide
example : parse_health_data [49, 51, 48, 47, 56, 53]
    = some (.blood_pressure 130 85 "high_stage1") := by decide
example : parse_health_data [20307, 37325, 32, 55, 53] = some (.weight 75 "kg") := by decide
example : parse_health_data [119, 101, 105, 103, 104, 116, 32, 49, 54, 53]
    = some (.weight 165 "lbs") := by decide
example : parse_health_data [119, 101, 105, 103, 104, 116, 32, 54, 53]
    = some (.weight 65 "kg") := by decide
example : parse_health_data [104, 114, 32, 55, 50] = some (.heart_rate 72 "normal") := by decide
example : parse_health_data [98, 115, 32, 57, 53] = some (.blood_sugar 95 "mg/dL" "normal") := by decide
example : parse_health_data [34880, 31958, 32, 53, 46, 54]
    = some (.blood_sugar (28/5) "mmol/L" "prediabetic") := by
  norm_num [parse_health_data, bpResult, bsResult, searchPos, bpMatchAt, bsMatchAt,
    firstSome, matchLit, bpBody, bpFrom, bp2Match, numAfter, numToken, skipSpaces, try23,
    take3Digits, take2Digits, natOfDigits, isDigitCp, isSpaceCp, toLowerCp, stripText,
    kwBp, kwXueya, kwBlood, kwBs, kwXuetang, kwSugar, kwGlucose, classify_bs]
example : handle_reply [83, 84, 79, 80] = .optOut := by decide
example : handle_reply [32, 110, 111, 32] = .optOut := by decide
example : handle_reply [111, 107] = .acknowledge := by decide
example : handle_reply [98, 112, 32, 49, 50, 48, 47, 56, 48]
    = .unknownEcho [98, 112, 32, 49, 50, 48, 47, 56, 48] := by decide

end ZhangHealth
